import Mathlib

/-!
# Verification of the input-binding layer of `example-teensy41-lvgl`

Shallow embedding of the repository's original logic: the configuration
tables (`Config.hpp`), the auto-binding input handler
(`include/handler/Handler.hpp`), the presentation view
(`ui::DemoView`, the generation with `setButton`/`setEncoder`/
`resetEncoderPositions`), and the startup sequence (`main.cpp`).

Modelling conventions:
* `float` values are embedded as exact rationals (`ℚ`).  Every concrete
  value the theorems evaluate at (`0`, `1/2`, `1`, `127`, `100`) is exactly
  representable in IEEE binary32 and the products the code forms at those
  points (`value * 127`, `normalized * 100`) are exact, so the rational
  model agrees with the machine arithmetic there.
* The C++ float-to-unsigned conversion `uint8_t(f)` truncates toward zero;
  it is modelled by `cTruncInt` / `uint8Trunc` below (defined behaviour in
  C++ only for `f` in `(-1, 256)`; all uses here stay inside `[0, 127]`).
* The handler's event callbacks are side-effecting; each callback is
  embedded as a pure function producing the ordered list of externally
  visible effects (`Effect`) it performs, and the view's methods as pure
  state transformers on `ViewState`.
-/

namespace OpenControl

/-- `oc::common::EncoderDef` — `{ id, pinA, pinB, ppr, rangeAngle,
ticksPerEvent, invertDirection }`. -/
structure EncoderDef where
  id : Nat
  pinA : Nat
  pinB : Nat
  ppr : Nat
  rangeAngle : Nat
  ticksPerEvent : Nat
  invertDirection : Bool
deriving DecidableEq, Repr

/-- `oc::common::ButtonDef` — `{ id, pin, activeLow }` (the pin source
MCU/MUX is dropped: only MCU pins appear in the tables). -/
structure ButtonDef where
  id : Nat
  pin : Nat
  activeLow : Bool
deriving DecidableEq, Repr

/-! ## Configuration (`Config.hpp`, the generation used by
`handler::Handler`: `Config::Encoder`, `Config::Button`, `Config::Midi`) -/

namespace Config

namespace Encoder

/-- `Config::Encoder::ENCODERS`:
`{10, 22, 23, PPR, RANGE, TICKS, INVERT}` and
`{11, 18, 19, PPR, RANGE, TICKS, INVERT}` with
`PPR = 24`, `RANGE = 270`, `TICKS = 1`, `INVERT = true`. -/
def ENCODERS : List EncoderDef :=
  [⟨10, 22, 23, 24, 270, 1, true⟩, ⟨11, 18, 19, 24, 270, 1, true⟩]

end Encoder

namespace Button

/-- `Config::Button::BUTTONS`: `{100, {32, Source::MCU}, true}`. -/
def BUTTONS : List ButtonDef := [⟨100, 32, true⟩]

end Button

namespace Midi

/-- `Config::Midi::CHANNEL = 0`. -/
def CHANNEL : Nat := 0

/-- `Config::Midi::BTN_CC_RANGE_START = 10`. -/
def BTN_CC_RANGE_START : Nat := 10

/-- `Config::Midi::ENC_CC_RANGE_START = 60`. -/
def ENC_CC_RANGE_START : Nat := 60

end Midi

end Config

/-! ## Earlier configuration generation (`include/Config.hpp`:
`Config::Enc`, `Config::Btn`, `Config::Midi` with `ENC_CC`/`BTN_CC`),
used by the self-binding `ui::DemoView`.  Embedded under `ConfigV1`
because Lean cannot hold both `Config.Midi` namespaces at once. -/

namespace ConfigV1

namespace Enc

/-- `Config::Enc::ALL = { LEFT, RIGHT }` with
`LEFT {10, 22, 23, 24, 270, 1, true}`, `RIGHT {11, 18, 19, 24, 270, 1, true}`. -/
def ALL : List EncoderDef :=
  [⟨10, 22, 23, 24, 270, 1, true⟩, ⟨11, 18, 19, 24, 270, 1, true⟩]

end Enc

namespace Btn

/-- `Config::Btn::ALL = { MAIN }` with `MAIN {100, {32, Src::MCU}, true}`. -/
def ALL : List ButtonDef := [⟨100, 32, true⟩]

end Btn

namespace Midi

/-- `Config::Midi::CHANNEL = 0` (early generation). -/
def CHANNEL : Nat := 0

/-- `Config::Midi::ENC_CC = 16` — CC number for the first encoder. -/
def ENC_CC : Nat := 16

/-- `Config::Midi::BTN_CC = 20` — CC number for the button. -/
def BTN_CC : Nat := 20

end Midi

end ConfigV1

/-! ## Numeric conversions -/

/-- C/C++ float-to-integer conversion: truncation toward zero.
Total function on `ℚ`; the C++ behaviour it models is defined only when
the truncated value fits the destination type. -/
def cTruncInt (q : ℚ) : Int := if 0 ≤ q then ⌊q⌋ else ⌈q⌉

/-- `uint8_t(f)` for a float `f`: truncation toward zero, as a `Nat`.
Defined C++ behaviour only for `f` in `(-1, 256)`; every use in the
handler stays inside `[0, 127]`. -/
def uint8Trunc (q : ℚ) : Nat := (cTruncInt q).toNat

/-! ## Externally visible effects of one handler callback -/

/-- One externally visible action performed by a handler callback, in
program order: a MIDI `sendCC`, a view update, or a hardware
`EncoderAPI::setPosition`. -/
inductive Effect where
  | midiCC (channel : Nat) (controller : Nat) (value : Nat)
  | viewSetEncoder (index : Nat) (value : ℚ)
  | viewSetButton (index : Nat) (pressed : Bool)
  | setPosition (encoderId : Nat) (value : ℚ)
  | viewResetEncoderPositions
deriving DecidableEq, Repr

/-- Recognizer for MIDI `sendCC` effects. -/
def Effect.isMidiCC : Effect → Bool
  | .midiCC _ _ _ => true
  | _ => false

/-- Recognizer for view `setEncoder` effects. -/
def Effect.isViewSetEncoder : Effect → Bool
  | .viewSetEncoder _ _ => true
  | _ => false

/-- Recognizer for view `setButton` effects. -/
def Effect.isViewSetButton : Effect → Bool
  | .viewSetButton _ _ => true
  | _ => false

/-- Recognizer for hardware `setPosition` effects. -/
def Effect.isSetPosition : Effect → Bool
  | .setPosition _ _ => true
  | _ => false

/-! ## The auto-binding input handler (`handler::Handler`,
`include/handler/Handler.hpp`).  Each callback body is embedded as the
list of effects it performs, in program order.  The callbacks are pure
functions of the event data, so every invocation of a given callback
produces the same effect sequence. -/

namespace Handler

/-- `View::DEFAULT_VALUE = 0.5f` (exact in binary32). -/
def DEFAULT_VALUE : ℚ := 1 / 2

/-- `Handler::sendEncoderCC`:
`midi_.sendCC(CHANNEL, ENC_CC_RANGE_START + index, uint8_t(value * 127))`. -/
def sendEncoderCC (index : Nat) (value : ℚ) : List Effect :=
  [.midiCC Config.Midi.CHANNEL (Config.Midi.ENC_CC_RANGE_START + index)
    (uint8Trunc (value * 127))]

/-- The body of the `turn().then` lambda registered by
`Handler::bindEncoders` for encoder slot `i`:
`sendEncoderCC(i, value); view_.setEncoder(i, value);`. -/
def encoderTurned (index : Nat) (value : ℚ) : List Effect :=
  sendEncoderCC index value ++ [.viewSetEncoder index value]

/-- `Handler::sendButtonCC`:
`midi_.sendCC(CHANNEL, BTN_CC_RANGE_START + index, value)`. -/
def sendButtonCC (index : Nat) (value : Nat) : List Effect :=
  [.midiCC Config.Midi.CHANNEL (Config.Midi.BTN_CC_RANGE_START + index) value]

/-- `Handler::resetAllEncoders`: for each configured encoder, in table
order, `encoders_.setPosition(ENCODERS[i].id, View::DEFAULT_VALUE)`;
then `view_.resetEncoderPositions()`. -/
def resetAllEncoders : List Effect :=
  (Config.Encoder.ENCODERS.map fun e => .setPosition e.id DEFAULT_VALUE)
    ++ [.viewResetEncoderPositions]

/-- `Handler::onButtonPress`: `if (index == 0) resetAllEncoders();`. -/
def onButtonPress (index : Nat) : List Effect :=
  if index = 0 then resetAllEncoders else []

/-- The body of the `press().then` lambda registered by
`Handler::bindButtons` for button slot `i`:
`sendButtonCC(i, 127); view_.setButton(i, true); onButtonPress(i);`. -/
def buttonPressed (index : Nat) : List Effect :=
  sendButtonCC index 127 ++ [.viewSetButton index true] ++ onButtonPress index

/-- The body of the `release().then` lambda registered by
`Handler::bindButtons` for button slot `i`:
`sendButtonCC(i, 0); view_.setButton(i, false);`. -/
def buttonReleased (index : Nat) : List Effect :=
  sendButtonCC index 0 ++ [.viewSetButton index false]

end Handler

/-! ## The presentation layer (`ui::DemoView`, the generation with
`setButton`/`setEncoder`/`resetEncoderPositions`, backed by
`EncoderSlider` and `ButtonIndicator` widgets).

An `EncoderSlider`'s mutable state is the percent it displays: `setValue`
stores `int32_t(normalized * 100)` into both the LVGL slider and the
percent label.  A `ButtonIndicator`'s mutable state is its pressed flag
(`setPressed` only recolours from it).  The view owns one vector of each. -/

namespace DemoView

/-- `DemoView::DEFAULT_VALUE = 0.5f`. -/
def DEFAULT_VALUE : ℚ := 1 / 2

/-- `EncoderSlider::setValue`: the stored percent is
`int32_t(normalized * 100)` (float-to-int truncation toward zero). -/
def sliderPercent (normalized : ℚ) : Int := cTruncInt (normalized * 100)

/-- Mutable view state: the percent shown by each `EncoderSlider` in
`sliders_` and the pressed flag of each `ButtonIndicator` in `buttons_`. -/
structure ViewState where
  sliders : List Int
  buttons : List Bool
deriving DecidableEq, Repr

/-- `DemoView::setEncoder`:
`if (index < sliders_.size()) sliders_[index]->setValue(value);`. -/
def setEncoder (s : ViewState) (index : Nat) (value : ℚ) : ViewState :=
  if index < s.sliders.length then
    { s with sliders := s.sliders.set index (sliderPercent value) }
  else s

/-- `DemoView::setButton`:
`if (index < buttons_.size()) buttons_[index]->setPressed(pressed);`. -/
def setButton (s : ViewState) (index : Nat) (pressed : Bool) : ViewState :=
  if index < s.buttons.length then
    { s with buttons := s.buttons.set index pressed }
  else s

/-- `DemoView::resetEncoderPositions`: every slider gets
`setValue(DEFAULT_VALUE)`. -/
def resetEncoderPositions (s : ViewState) : ViewState :=
  { s with sliders := s.sliders.map fun _ => sliderPercent DEFAULT_VALUE }

end DemoView

/-! ## Startup (`main.cpp` / `setup()`).

`setup()` runs `initDisplay()`, `initLVGL()`, `initApp()` in order;
`checkOrHalt` (and the equivalent `if (!init...) { ...; while (true); }`
pattern in the other `main.cpp` generation) spins forever when an
initialization `Result` reports failure.  The configuration tables are
handed to the hardware controller builders, but no startup code reads the
`Config::Midi` values — the only values consulted before the main loop are
the three initialization results. -/

/-- The compile-time configuration surface the binder and startup depend
on: the two descriptor tables and the MIDI channel/base-CC numbers. -/
structure AppConfig where
  encoders : List EncoderDef
  buttons : List ButtonDef
  channel : Nat
  encCCRangeStart : Nat
  btnCCRangeStart : Nat
deriving DecidableEq, Repr

/-- The configuration actually compiled into the firmware
(`Config.hpp`, handler generation). -/
def theAppConfig : AppConfig :=
  { encoders := Config.Encoder.ENCODERS
    buttons := Config.Button.BUTTONS
    channel := Config.Midi.CHANNEL
    encCCRangeStart := Config.Midi.ENC_CC_RANGE_START
    btnCCRangeStart := Config.Midi.BTN_CC_RANGE_START }

/-- Outcome of `setup()`: either some component's init failed and the
program spins forever before the main loop, or `loop()` is reached. -/
inductive StartupOutcome where
  | haltedAt (component : String)
  | mainLoopEntered
deriving DecidableEq, Repr

/-- Embedding of `setup()`: initialize display, LVGL, then the app, in
that order, halting at the first failed initialization.  `cfg` is passed
through to the controller builders exactly as `Config::Encoder::ENCODERS`
and `Config::Button::BUTTONS` are in `initApp()`; no branch of `setup()`
inspects it. -/
def setup (cfg : AppConfig) (displayInitOk lvglInitOk appBeginOk : Bool) :
    StartupOutcome :=
  if !displayInitOk then .haltedAt "Display"
  else if !lvglInitOk then .haltedAt "LVGL"
  else if !appBeginOk then .haltedAt "App"
  else
    -- cfg reaches the encoder/button controllers unexamined
    let _tables := (cfg.encoders, cfg.buttons)
    .mainLoopEntered

/-! ## Derived CC assignments and spec-side definitions -/

/-- The CC numbers the handler derives for the encoder table:
`ENC_CC_RANGE_START + i` for each index `i`. -/
def encoderCCs (cfg : AppConfig) : List Nat :=
  (List.range cfg.encoders.length).map fun i => cfg.encCCRangeStart + i

/-- The CC numbers the handler derives for the button table:
`BTN_CC_RANGE_START + i` for each index `i`. -/
def buttonCCs (cfg : AppConfig) : List Nat :=
  (List.range cfg.buttons.length).map fun i => cfg.btnCCRangeStart + i

/-- The early-generation configuration (`ConfigV1`), as an `AppConfig`
(the self-binding `ui::DemoView` uses `ENC_CC + i` for encoders and the
single `BTN_CC` for its one button). -/
def theAppConfigV1 : AppConfig :=
  { encoders := ConfigV1.Enc.ALL
    buttons := ConfigV1.Btn.ALL
    channel := ConfigV1.Midi.CHANNEL
    encCCRangeStart := ConfigV1.Midi.ENC_CC
    btnCCRangeStart := ConfigV1.Midi.BTN_CC }

/-- Modelled from the spec: the CC value the spec demands for an encoder
turn — `round(value * 127)` clamped to `[0, 127]` under round-half-up.
No corresponding definition exists in the source (the source truncates);
this follows the spec's words for comparison. -/
def spec_roundHalfUpCC (value : ℚ) : Nat :=
  min 127 (Int.toNat ⌊value * 127 + 1 / 2⌋)

/-- Modelled from the spec: the startup validation the spec requires —
the derived CC numbers of the two ranges must not collide and must stay
within 0–127.  No corresponding check exists anywhere in the source;
this follows the spec's words for comparison with `setup`. -/
def spec_ccConfigValid (cfg : AppConfig) : Bool :=
  ((encoderCCs cfg ++ buttonCCs cfg).all fun c => decide (c ≤ 127)) &&
  ((encoderCCs cfg).all fun c => (buttonCCs cfg).all fun b => decide (c ≠ b))

/-- A deliberately mis-configured table used to exhibit that `setup`
performs no CC validation: the button base CC is moved onto the encoder
base CC, so the two ranges collide. -/
def collidingConfig : AppConfig :=
  { theAppConfig with btnCCRangeStart := theAppConfig.encCCRangeStart }

/-! ## Helper lemmas -/

/-- For `0 ≤ q`, the C truncation agrees with the floor, as an integer. -/
theorem uint8Trunc_cast_eq_floor (q : ℚ) (h : 0 ≤ q) :
    (uint8Trunc q : ℤ) = ⌊q⌋ := by
  have hfl : (0 : ℤ) ≤ ⌊q⌋ := Int.floor_nonneg.mpr h
  simp only [uint8Trunc, cTruncInt, if_pos h]
  omega

/-- Evaluation rule for `uint8Trunc` at a value lying in `[n, n + 1)`. -/
theorem uint8Trunc_eq_of_bounds (q : ℚ) (n : Nat) (hq : 0 ≤ q)
    (hl : (n : ℚ) ≤ q) (hu : q < n + 1) : uint8Trunc q = n := by
  have hfloor : ⌊q⌋ = (n : ℤ) := by
    rw [Int.floor_eq_iff]
    constructor
    · exact_mod_cast hl
    · push_cast
      exact hu
  rw [uint8Trunc, cTruncInt, if_pos hq, hfloor]
  omega

/-- For `q ≤ 127` (and `0 ≤ q`) the truncated value stays at most 127. -/
theorem uint8Trunc_le_127 (q : ℚ) (h0 : 0 ≤ q) (h1 : q ≤ 127) :
    uint8Trunc q ≤ 127 := by
  have h127 : ⌊q⌋ ≤ 127 := by
    calc ⌊q⌋ ≤ ⌊(127 : ℚ)⌋ := Int.floor_le_floor h1
      _ = 127 := by norm_num
  simp only [uint8Trunc, cTruncInt, if_pos h0]
  omega

/-! ## Claim theorems -/

/-- C1 counterexample: at `v = 1/2` the code emits CC value 63
(`uint8_t(0.5f * 127)` truncates `63.5` to `63`; the product is exact in
binary32), whereas the claim's round-half-up rule demands 64.  The claim
as stated is therefore false at `v = 1/2`. -/
theorem C1_counterexample :
    Handler.sendEncoderCC 0 (1 / 2) =
      [Effect.midiCC Config.Midi.CHANNEL (Config.Midi.ENC_CC_RANGE_START + 0) 63] ∧
    spec_roundHalfUpCC (1 / 2) = 64 ∧ (63 : Nat) ≠ 64 := by
  refine ⟨?_, ?_, by decide⟩
  · rw [Handler.sendEncoderCC,
      uint8Trunc_eq_of_bounds ((1 / 2 : ℚ) * 127) 63 (by norm_num) (by norm_num)
        (by norm_num)]
  · rw [spec_roundHalfUpCC]
    have h : ((1 / 2 : ℚ) * 127 + 1 / 2) = 64 := by norm_num
    rw [h]
    norm_num
    rfl

/-- C1 (amended): for every encoder turned event with normalized value
`v ∈ [0, 1]`, the emitted CC value equals `⌊v * 127⌋` — C truncation, not
round-half-up — and lies in `[0, 127]` without any explicit clamp;
boundaries: `v = 0 → 0`, `v = 1 → 127`, `v = 1/2 → 63`. -/
theorem C1_truncation :
    (∀ (i : Nat) (v : ℚ), 0 ≤ v → v ≤ 1 →
      ∃ c : Nat,
        Handler.sendEncoderCC i v =
          [Effect.midiCC Config.Midi.CHANNEL (Config.Midi.ENC_CC_RANGE_START + i) c] ∧
        (c : ℤ) = ⌊v * 127⌋ ∧ c ≤ 127) ∧
    Handler.sendEncoderCC 0 0 =
      [Effect.midiCC Config.Midi.CHANNEL (Config.Midi.ENC_CC_RANGE_START + 0) 0] ∧
    Handler.sendEncoderCC 0 1 =
      [Effect.midiCC Config.Midi.CHANNEL (Config.Midi.ENC_CC_RANGE_START + 0) 127] ∧
    Handler.sendEncoderCC 0 (1 / 2) =
      [Effect.midiCC Config.Midi.CHANNEL (Config.Midi.ENC_CC_RANGE_START + 0) 63] := by
  refine ⟨?_, ?_, ?_, ?_⟩
  · intro i v h0 h1
    refine ⟨uint8Trunc (v * 127), rfl, ?_, ?_⟩
    · exact uint8Trunc_cast_eq_floor (v * 127) (by positivity)
    · exact uint8Trunc_le_127 (v * 127) (by positivity) (by nlinarith)
  · rw [Handler.sendEncoderCC,
      uint8Trunc_eq_of_bounds ((0 : ℚ) * 127) 0 (by norm_num) (by norm_num) (by norm_num)]
  · rw [Handler.sendEncoderCC,
      uint8Trunc_eq_of_bounds ((1 : ℚ) * 127) 127 (by norm_num) (by norm_num) (by norm_num)]
  · rw [Handler.sendEncoderCC,
      uint8Trunc_eq_of_bounds ((1 / 2 : ℚ) * 127) 63 (by norm_num) (by norm_num) (by norm_num)]

/-- C1 witness: the amended statement applied at `i = 0`, `v = 1/4`. -/
theorem C1_witness :
    ∃ c : Nat,
      Handler.sendEncoderCC 0 (1 / 4) =
        [Effect.midiCC Config.Midi.CHANNEL (Config.Midi.ENC_CC_RANGE_START + 0) c] ∧
      (c : ℤ) = ⌊(1 / 4 : ℚ) * 127⌋ ∧ c ≤ 127 :=
  C1_truncation.1 0 (1 / 4) (by norm_num) (by norm_num)

/-- C2: on a press of the button at index 0, every encoder in the table
receives a hardware `setPosition(id, 0.5)`, exactly one presentation
`resetEncoderPositions()` occurs, and every `setPosition` effect precedes
it in the callback's effect sequence.  The callback is a pure function of
the index, so the ordering holds on every invocation. -/
theorem C2_hardware_before_view :
    (∀ e ∈ Config.Encoder.ENCODERS,
      Effect.setPosition e.id Handler.DEFAULT_VALUE ∈ Handler.buttonPressed 0) ∧
    (Handler.buttonPressed 0).count Effect.viewResetEncoderPositions = 1 ∧
    (∀ p q : Fin (Handler.buttonPressed 0).length,
      Effect.isSetPosition ((Handler.buttonPressed 0).get p) = true →
      (Handler.buttonPressed 0).get q = Effect.viewResetEncoderPositions →
      p < q) := by
  refine ⟨?_, by decide, by decide⟩
  simp [Config.Encoder.ENCODERS, Handler.buttonPressed, Handler.sendButtonCC,
    Handler.onButtonPress, Handler.resetAllEncoders]

/-- C2 witness: the left encoder (id 10) gets its `setPosition` effect on
a press of button 0. -/
theorem C2_witness :
    Effect.setPosition 10 Handler.DEFAULT_VALUE ∈ Handler.buttonPressed 0 :=
  C2_hardware_before_view.1 ⟨10, 22, 23, 24, 270, 1, true⟩
    (by simp [Config.Encoder.ENCODERS])

/-- C3: a turned event on encoder slot `i` produces exactly one MIDI CC
effect — at controller `ENC_CC_RANGE_START + i` — and exactly one
presentation update, namely `setEncoder(i, v)`. -/
theorem C3_exactly_one_cc_and_update (i : Nat) (v : ℚ)
    (_h : i < Config.Encoder.ENCODERS.length) :
    (∃ c : Nat,
      (Handler.encoderTurned i v).filter Effect.isMidiCC =
        [Effect.midiCC Config.Midi.CHANNEL (Config.Midi.ENC_CC_RANGE_START + i) c]) ∧
    (Handler.encoderTurned i v).filter Effect.isViewSetEncoder =
      [Effect.viewSetEncoder i v] :=
  ⟨⟨uint8Trunc (v * 127), rfl⟩, rfl⟩

/-- C3 witness: the statement applied at `i = 1`, `v = 3/4`. -/
theorem C3_witness :
    (∃ c : Nat,
      (Handler.encoderTurned 1 (3 / 4)).filter Effect.isMidiCC =
        [Effect.midiCC Config.Midi.CHANNEL (Config.Midi.ENC_CC_RANGE_START + 1) c]) ∧
    (Handler.encoderTurned 1 (3 / 4)).filter Effect.isViewSetEncoder =
      [Effect.viewSetEncoder 1 (3 / 4)] :=
  C3_exactly_one_cc_and_update 1 (3 / 4) (by decide)

/-- C4: for every button slot `i` in the table, the press callback's MIDI
output is exactly one CC at controller `BTN_CC_RANGE_START + i` with
value 127, and the release callback's is exactly one CC at the same
controller with value 0. -/
theorem C4_press_release_cc (i : Nat) (h : i < Config.Button.BUTTONS.length) :
    (Handler.buttonPressed i).filter Effect.isMidiCC =
      [Effect.midiCC Config.Midi.CHANNEL (Config.Midi.BTN_CC_RANGE_START + i) 127] ∧
    (Handler.buttonReleased i).filter Effect.isMidiCC =
      [Effect.midiCC Config.Midi.CHANNEL (Config.Midi.BTN_CC_RANGE_START + i) 0] := by
  have hi : i = 0 := by
    have hlen : Config.Button.BUTTONS.length = 1 := rfl
    omega
  subst hi
  exact ⟨rfl, rfl⟩

/-- C4 witness: the statement applied at the configured button, `i = 0`. -/
theorem C4_witness :
    (Handler.buttonPressed 0).filter Effect.isMidiCC =
      [Effect.midiCC Config.Midi.CHANNEL (Config.Midi.BTN_CC_RANGE_START + 0) 127] ∧
    (Handler.buttonReleased 0).filter Effect.isMidiCC =
      [Effect.midiCC Config.Midi.CHANNEL (Config.Midi.BTN_CC_RANGE_START + 0) 0] :=
  C4_press_release_cc 0 (by decide)

/-- C6: for every button slot `i` in the table, the press callback
forwards exactly `setButton(i, true)` to the presentation layer and the
release callback forwards exactly `setButton(i, false)`, alongside the CC
emission. -/
theorem C6_forwards_press_state (i : Nat) (h : i < Config.Button.BUTTONS.length) :
    (Handler.buttonPressed i).filter Effect.isViewSetButton =
      [Effect.viewSetButton i true] ∧
    (Handler.buttonReleased i).filter Effect.isViewSetButton =
      [Effect.viewSetButton i false] := by
  have hi : i = 0 := by
    have hlen : Config.Button.BUTTONS.length = 1 := rfl
    omega
  subst hi
  exact ⟨rfl, rfl⟩

/-- C6 witness: the statement applied at the configured button, `i = 0`. -/
theorem C6_witness :
    (Handler.buttonPressed 0).filter Effect.isViewSetButton =
      [Effect.viewSetButton 0 true] ∧
    (Handler.buttonReleased 0).filter Effect.isViewSetButton =
      [Effect.viewSetButton 0 false] :=
  C6_forwards_press_state 0 (by decide)

/-- C7: for every button index `i ≠ 0`, the press callback's complete
effect sequence is the press CC followed by the presentation press
update — no `setPosition`, no `resetEncoderPositions`, nothing else. -/
theorem C7_only_button_zero_resets (i : Nat) (h : i ≠ 0) :
    Handler.buttonPressed i =
      [Effect.midiCC Config.Midi.CHANNEL (Config.Midi.BTN_CC_RANGE_START + i) 127,
       Effect.viewSetButton i true] := by
  simp [Handler.buttonPressed, Handler.sendButtonCC, Handler.onButtonPress, h]

/-- C7 witness: the statement applied at `i = 1`. -/
theorem C7_witness :
    Handler.buttonPressed 1 =
      [Effect.midiCC Config.Midi.CHANNEL (Config.Midi.BTN_CC_RANGE_START + 1) 127,
       Effect.viewSetButton 1 true] :=
  C7_only_button_zero_resets 1 (by decide)

/-- C8: `resetAllEncoders` performs no MIDI CC of its own, and the whole
press-at-index-0 callback emits exactly one CC — the button's own press
CC with value 127. -/
theorem C8_reset_emits_no_cc :
    Handler.resetAllEncoders.filter Effect.isMidiCC = [] ∧
    (Handler.buttonPressed 0).filter Effect.isMidiCC =
      [Effect.midiCC Config.Midi.CHANNEL (Config.Midi.BTN_CC_RANGE_START + 0) 127] :=
  ⟨rfl, rfl⟩

/-- C9: for both configuration generations, the derived CC assignments
(encoder base + index, button base + index) are pairwise distinct across
the two ranges and all lie within 0–127.  Handler generation:
`[60, 61]` and `[10]`; early generation: `[16, 17]` and `[20]`. -/
theorem C9_cc_assignments_valid :
    ((encoderCCs theAppConfig ++ buttonCCs theAppConfig).Nodup ∧
      ((encoderCCs theAppConfig ++ buttonCCs theAppConfig).all
        fun c => decide (c ≤ 127)) = true) ∧
    ((encoderCCs theAppConfigV1 ++ buttonCCs theAppConfigV1).Nodup ∧
      ((encoderCCs theAppConfigV1 ++ buttonCCs theAppConfigV1).all
        fun c => decide (c ≤ 127)) = true) := by
  decide

/-- C10: `DemoView::setEncoder` with an out-of-range index (at or past the
number of sliders) is a total no-op: the view state is returned unchanged,
so no handler-supplied index reaches outside the slider vector. -/
theorem C10_setEncoder_oob_noop (s : DemoView.ViewState) (i : Nat) (v : ℚ)
    (h : s.sliders.length ≤ i) :
    DemoView.setEncoder s i v = s := by
  rw [DemoView.setEncoder, if_neg (by omega)]

/-- C10 witness: the statement applied at a two-slider view state and
index 2. -/
theorem C10_witness :
    DemoView.setEncoder ⟨[50, 50], [false]⟩ 2 0 = ⟨[50, 50], [false]⟩ :=
  C10_setEncoder_oob_noop ⟨[50, 50], [false]⟩ 2 0 (by decide)

/-- C5 counterexample: `setup` performs no CC-range validation — with a
configuration whose button CC base collides with the encoder CC base
(violating the spec's invariant), startup still reaches the main loop
when the three component initializations succeed. -/
theorem C5_counterexample :
    spec_ccConfigValid collidingConfig = false ∧
    setup collidingConfig true true true = StartupOutcome.mainLoopEntered :=
  ⟨rfl, rfl⟩

/-- C5 (amended): the only startup checks are the display, LVGL and app
initialization results — the program halts before the main loop iff one
of them fails — and the outcome is the same for every configuration, so
no CC-range collision or range check happens at startup.  (The configured
tables satisfy the CC invariant anyway; see the C9 theorem.) -/
theorem C5_startup_checks :
    ∀ (cfg : AppConfig) (d l a : Bool),
      (setup cfg d l a = StartupOutcome.mainLoopEntered ↔
        d = true ∧ l = true ∧ a = true) ∧
      setup cfg d l a = setup theAppConfig d l a := by
  intro cfg d l a
  cases d <;> cases l <;> cases a <;> simp [setup]

end OpenControl
